import Mathlib

/-!
Verification of the Onshape drawing translation pipeline and the local
STEP-to-GLB conversion cache of the part-management-system repository.

The embedding covers:
* `parse_drawing_url`  (src/backend/utils/onshape_drawing.py, lines 39-64;
  the identical copy lives in src/get_data/download_drawing_pdf.py, lines 30-51),
* `extract_status_url` (onshape_drawing.py, lines 116-121; inlined at
  download_drawing_pdf.py, lines 84-88),
* the two polling loops `_poll_translation` (onshape_drawing.py, lines 123-137
  and download_drawing_pdf.py, lines 105-133), which differ in how they read
  the `requestState` field of a status payload,
* the result-resolution branch of `download_pdf` (onshape_drawing.py,
  lines 94-108 and download_drawing_pdf.py, lines 90-103),
* `_download_file` (onshape_drawing.py, lines 139-151 and
  download_drawing_pdf.py, lines 135-158) over a small filesystem model,
* `convert_step_to_gltf` (src/backend/utils/step_converter.py) and the
  model endpoint `get_part_model` (src/backend/routes/parts.py, lines 675-723).

Machine strings are Lean `String`; JSON bodies are modelled field by field,
with a three-valued `JsonField` distinguishing an absent key, a JSON null,
and a string value, because the two polling loops treat these differently.
-/

deriving instance DecidableEq for Except

namespace PartMgmt

/-- A JSON field that may be missing from the object, set to JSON null, or a
string.  Python `dict.get(k)` yields `None` for both `absent` and `null`;
`dict.get(k, "")` yields `""` for `absent` but `None` for `null`. -/
inductive JsonField where
  | absent
  | null
  | str (s : String)
deriving DecidableEq

/-- The fields of a translation status response that the clients read. -/
structure StatusPayload where
  requestState : JsonField
  resultExternalDataIds : Option (List String)
  resultElementIds : Option (List String)
deriving DecidableEq

/-- The typed failure modes of the pipeline, in the vocabulary of the spec.
`malformedReference` embeds the `ValueError` raised by `parse_drawing_url`;
`missingStatusLink` embeds the `RuntimeError` raised when the submission
response carries no usable `href`. -/
inductive DrawingError where
  | malformedReference
  | missingStatusLink
deriving DecidableEq

/-! ## Reference Parser (`parse_drawing_url`)

The source applies `re.search` with the pattern
`/documents/([A-Za-z0-9]+)/w/([A-Za-z0-9]+)/e/([A-Za-z0-9]+)`.
Because the character class excludes `/`, the regex engine is deterministic
here: at each candidate start position the match either consumes the literal
`/documents/`, a maximal nonempty alphanumeric run, `/w/`, a run, `/e/`, and a
run, or fails; `re.search` takes the leftmost position that matches.  The
functions below implement exactly that. -/

/-- ASCII letters and digits, the character class `[A-Za-z0-9]`. -/
def isAlnumChar (c : Char) : Bool := c.isAlpha || c.isDigit

/-- Consume the literal `lit` from the front of `cs`, returning the rest. -/
def chompLit : List Char → List Char → Option (List Char)
  | [], cs => some cs
  | _ :: _, [] => none
  | l :: ls, c :: cs => if c = l then chompLit ls cs else none

/-- Split off the maximal leading run of alphanumeric characters. -/
def takeAlnum : List Char → List Char × List Char
  | [] => ([], [])
  | c :: cs =>
    if isAlnumChar c then
      let p := takeAlnum cs
      (c :: p.1, p.2)
    else ([], c :: cs)

/-- The literal `/documents/` of the pattern. -/
def docLit : List Char := ['/', 'd', 'o', 'c', 'u', 'm', 'e', 'n', 't', 's', '/']

/-- The literal `/w/` of the pattern. -/
def wLit : List Char := ['/', 'w', '/']

/-- The literal `/e/` of the pattern. -/
def eLit : List Char := ['/', 'e', '/']

/-- Match the drawing-URL pattern anchored at the start of `cs`, returning the
three captured groups. -/
def matchAt (cs : List Char) : Option (List Char × List Char × List Char) :=
  match chompLit docLit cs with
  | none => none
  | some r1 =>
    let dp := takeAlnum r1
    if dp.1 = [] then none else
    match chompLit wLit dp.2 with
    | none => none
    | some r3 =>
      let wp := takeAlnum r3
      if wp.1 = [] then none else
      match chompLit eLit wp.2 with
      | none => none
      | some r5 =>
        let ep := takeAlnum r5
        if ep.1 = [] then none else some (dp.1, wp.1, ep.1)

/-- Leftmost search, as `re.search`: try the anchored match at every
successive start position. -/
def searchMatch : List Char → Option (List Char × List Char × List Char)
  | [] => none
  | c :: cs =>
    match matchAt (c :: cs) with
    | some t => some t
    | none => searchMatch cs

/-- Embeds `OnshapeDrawingClient.parse_drawing_url` and the identical
`OnshapeDrawingDownloader.parse_drawing_url`: search for the pattern, raise
`ValueError` (modelled `DrawingError.malformedReference`) when absent. -/
def parse_drawing_url (url : String) : Except DrawingError (String × String × String) :=
  match searchMatch url.data with
  | some (d, w, e) => Except.ok (⟨d⟩, ⟨w⟩, ⟨e⟩)
  | none => Except.error DrawingError.malformedReference

/-- A nonempty all-alphanumeric token. -/
def AlnumToken (t : List Char) : Prop := t ≠ [] ∧ t.all isAlnumChar = true

instance (t : List Char) : Decidable (AlnumToken t) := by
  unfold AlnumToken; infer_instance

/-- The character list `cs` contains an occurrence of the substring pattern
`/documents/{d}/w/{w}/e/{e}` with the given tokens. -/
def IsOccurrence (cs d w e : List Char) : Prop :=
  AlnumToken d ∧ AlnumToken w ∧ AlnumToken e ∧
    ∃ p s, cs = p ++ docLit ++ d ++ wLit ++ w ++ eLit ++ e ++ s

/-- String-level form of `IsOccurrence`. -/
def IsOccurrenceStr (url d w e : String) : Prop :=
  IsOccurrence url.data d.data w.data e.data

/-! ## Job Submitter status link (`_extract_status_url`)

Source (onshape_drawing.py, lines 116-121; the same code is inlined in
download_drawing_pdf.py, lines 84-88):
`href = translation_info.get("href")`, then `if not href: raise RuntimeError`,
then return `href` when it starts with `http`, else the base URL followed by
`href`.  Python truthiness makes an absent key, a JSON null and the empty
string all take the error branch. -/

/-- Python `s.startswith(pre)`: `pre` is an initial run of `s`. -/
def pyStartsWith (s pre : String) : Bool := (chompLit pre.data s.data).isSome

def extract_status_url (base_url : String) (href : JsonField) :
    Except DrawingError String :=
  match href with
  | JsonField.absent => Except.error DrawingError.missingStatusLink
  | JsonField.null => Except.error DrawingError.missingStatusLink
  | JsonField.str s =>
    if s = "" then Except.error DrawingError.missingStatusLink
    else if pyStartsWith s "http" then Except.ok s
    else Except.ok (base_url ++ s)

/-! ## Status Poller (`_poll_translation`)

Both loops run `for _ in range(max_attempts)`, issue one status GET per
iteration, classify the uppercased state, and sleep `delay_seconds` before the
next iteration; when the loop ends they raise `TimeoutError`.

The backend client (onshape_drawing.py, line 131) reads the state with
`(status_payload.get("requestState") or "").upper()` — absent, null and empty
values all collapse to the empty string.  The standalone script
(download_drawing_pdf.py, line 126) uses
`status_payload.get("requestState", "").upper()` — absent becomes the empty
string, but a JSON null reaches `.upper()` as `None` and raises
`AttributeError`.  Uppercasing is ASCII `str.upper` on the states used here. -/

/-- Python `str.upper` (ASCII; the states compared against are ASCII). -/
def pyUpper (s : String) : String := ⟨s.data.map Char.toUpper⟩

/-- State extraction of the backend client: `(x or "").upper()`. -/
def stateOfBackend : JsonField → String
  | JsonField.absent => ""
  | JsonField.null => ""
  | JsonField.str s => pyUpper s

/-- State extraction of the standalone script: `x.get(k, "").upper()`;
`none` models the `AttributeError` raised on a JSON null. -/
def stateOfScript : JsonField → Option String
  | JsonField.absent => some ""
  | JsonField.null => none
  | JsonField.str s => some (pyUpper s)

/-- Observable events of one polling run: a status GET returning the given
payload, or a `time.sleep(delay_seconds)` between attempts. -/
inductive PollEvent where
  | statusCall (payload : StatusPayload)
  | sleepDelay
deriving DecidableEq

/-- Result of the backend polling loop: the `DONE` payload, the
`RuntimeError` on a `FAILED`/`CANCELED` state (spec: `TerminalFailureError`),
or the `TimeoutError` after the attempt budget (spec: `PollingTimeoutError`). -/
inductive PollOutcome where
  | done (payload : StatusPayload)
  | terminalFailure (state : String)
  | timeout
deriving DecidableEq

/-- Result of the script polling loop; `attributeError` is the unhandled
`AttributeError` from `None.upper()`. -/
inductive ScriptPollOutcome where
  | done (payload : StatusPayload)
  | terminalFailure (state : String)
  | timeout
  | attributeError
deriving DecidableEq

/-- Backend `_poll_translation` from attempt index `i` with `n` attempts
remaining; `responses j` is the payload of the `j`-th status GET.  Returns the
event trace together with the outcome. -/
def pollAux (responses : Nat → StatusPayload) : Nat → Nat → List PollEvent × PollOutcome
  | _, 0 => ([], PollOutcome.timeout)
  | i, n + 1 =>
    let st := stateOfBackend (responses i).requestState
    if st = "DONE" then
      ([PollEvent.statusCall (responses i)], PollOutcome.done (responses i))
    else if st = "FAILED" ∨ st = "CANCELED" then
      ([PollEvent.statusCall (responses i)], PollOutcome.terminalFailure st)
    else
      let rest := pollAux responses (i + 1) n
      (PollEvent.statusCall (responses i) :: PollEvent.sleepDelay :: rest.1, rest.2)

/-- Embeds `OnshapeDrawingClient._poll_translation` (default `max_attempts = 30`). -/
def poll_translation (responses : Nat → StatusPayload) (maxAttempts : Nat) :
    List PollEvent × PollOutcome :=
  pollAux responses 0 maxAttempts

/-- Script `_poll_translation` from attempt index `i`. -/
def scriptPollAux (responses : Nat → StatusPayload) :
    Nat → Nat → List PollEvent × ScriptPollOutcome
  | _, 0 => ([], ScriptPollOutcome.timeout)
  | i, n + 1 =>
    match stateOfScript (responses i).requestState with
    | none => ([PollEvent.statusCall (responses i)], ScriptPollOutcome.attributeError)
    | some st =>
      if st = "DONE" then
        ([PollEvent.statusCall (responses i)], ScriptPollOutcome.done (responses i))
      else if st = "FAILED" ∨ st = "CANCELED" then
        ([PollEvent.statusCall (responses i)], ScriptPollOutcome.terminalFailure st)
      else
        let rest := scriptPollAux responses (i + 1) n
        (PollEvent.statusCall (responses i) :: PollEvent.sleepDelay :: rest.1, rest.2)

/-- Embeds `OnshapeDrawingDownloader._poll_translation`. -/
def script_poll_translation (responses : Nat → StatusPayload) (maxAttempts : Nat) :
    List PollEvent × ScriptPollOutcome :=
  scriptPollAux responses 0 maxAttempts

/-- Number of status GETs in a polling trace. -/
def numCalls (evs : List PollEvent) : Nat :=
  evs.countP fun ev =>
    match ev with
    | PollEvent.statusCall _ => true
    | PollEvent.sleepDelay => false

/-- A state string that neither returns nor aborts the loop. -/
def nonTerminalState (st : String) : Prop :=
  st ≠ "DONE" ∧ st ≠ "FAILED" ∧ st ≠ "CANCELED"

instance (st : String) : Decidable (nonTerminalState st) := by
  unfold nonTerminalState; infer_instance

/-! ## Result Resolver

Source (onshape_drawing.py, lines 94-108): after a `DONE` payload,
`external_ids = final_status.get("resultExternalDataIds") or []` and
`element_ids = final_status.get("resultElementIds") or []`; a nonempty
external list wins, else a nonempty element list, else
`RuntimeError("Translation finished without downloadable results.")`
(spec: `NoResultError`).  download_drawing_pdf.py, lines 90-103, branches as
`if not external_ids: (element or raise)` / `else external` — the same
function. -/

/-- Python `dict.get(k) or []`: absent, null and the empty list give `[]`. -/
def listOr : Option (List String) → List String
  | none => []
  | some l => l

/-- The two result-addressing variants of a completed job. -/
inductive ResultRef where
  | externalBlob (blobId : String)
  | element (elementId : String)
deriving DecidableEq

/-- Resolution failure: `RuntimeError` on a `DONE` payload without results. -/
inductive ResolveError where
  | noResult
deriving DecidableEq

/-- The result-selection branch of `download_pdf`. -/
def resolveResult (payload : StatusPayload) : Except ResolveError ResultRef :=
  match listOr payload.resultExternalDataIds with
  | b :: _ => Except.ok (ResultRef.externalBlob b)
  | [] =>
    match listOr payload.resultElementIds with
    | e :: _ => Except.ok (ResultRef.element e)
    | [] => Except.error ResolveError.noResult

/-! ## Filesystem model

Paths are lists of segments plus an absolute flag.  The file store is keyed by
resolved (absolute) segment lists; `resolvePath` models `Path.resolve()`
against a current working directory (the paths handled by the code contain no
`..` or `.` segments, so resolution is plain prefixing).  `mkdirAllFs` models
`Path.mkdir(parents=True, exist_ok=True)`: the directory and every ancestor
exist afterwards. -/

/-- A `pathlib.Path`: absolute flag plus segments. -/
structure FsPath where
  absolute : Bool
  segs : List String
deriving DecidableEq

/-- Filesystem state: file contents (byte lists) keyed by absolute segment
lists, and a directory-existence predicate. -/
structure FS where
  files : List String → Option (List Nat)
  dirs : List String → Bool

/-- Models `Path.resolve()`: an absolute path is unchanged, a relative one is
prefixed with the working directory. -/
def resolvePath (cwd : List String) (p : FsPath) : FsPath :=
  ⟨true, if p.absolute then p.segs else cwd ++ p.segs⟩

/-- The parent directory of a path, as segments. -/
def parentSegs (segs : List String) : List String := segs.dropLast

/-- Holds when `d` is an initial run of the segment list `q` (so `d` is `q` itself or an
ancestor directory of `q`). -/
def segsLead : List String → List String → Bool
  | [], _ => true
  | _ :: _, [] => false
  | a :: as, b :: bs => a = b && segsLead as bs

/-- Models `dir.mkdir(parents=True, exist_ok=True)`: afterwards `dir` and all its
ancestors exist; files are untouched. -/
def mkdirAllFs (fs : FS) (dir : List String) : FS :=
  { fs with dirs := fun d => if segsLead d dir then true else fs.dirs d }

/-- Checks `(fs.files p).isSome`, the `Path.exists()` test for a file. -/
def fileExists (fs : FS) (p : List String) : Bool := (fs.files p).isSome

/-- The fixed chunk size of `iter_content(chunk_size=8192)`. -/
def CHUNK_SIZE : Nat := 8192

/-- Models `response.iter_content(chunk_size=8192)`: the body split into successive
chunks of at most 8192 bytes (none for an empty body). -/
def toChunks (l : List Nat) : List (List Nat) :=
  if h : l = [] then []
  else l.take CHUNK_SIZE :: toChunks (l.drop CHUNK_SIZE)
termination_by l.length
decreasing_by
  simp only [List.length_drop, CHUNK_SIZE]
  have h1 : 0 < l.length := List.length_pos.mpr h
  omega

/-- One iteration of the write loop: `if chunk: file_handle.write(chunk)`,
appending a nonempty chunk to the bytes written so far. -/
def writeStep (acc c : List Nat) : List Nat := if c = [] then acc else acc ++ c

/-- The write loop `for chunk in ...: if chunk: file_handle.write(chunk)`,
started on a file freshly opened with mode `wb` (hence empty). -/
def writeChunks (chunks : List (List Nat)) : List Nat :=
  chunks.foldl writeStep []

/-- Embeds `_download_file` (onshape_drawing.py, lines 139-151; the script version at
download_drawing_pdf.py, lines 135-158 is the same computation): create the
parent directories of the destination, open it with mode `wb` (truncating any
previous content), stream the response body in 8 KiB chunks, and return the
resolved absolute path.  `_download_blob_element` duplicates this write loop
verbatim and differs only in the URL and Accept header, which live in the
abstracted HTTP layer; it is embedded by this same function.  `body` is the
full response byte sequence. -/
def download_file (fs : FS) (cwd : List String) (output_path : FsPath)
    (body : List Nat) : FS × FsPath :=
  let rp := resolvePath cwd output_path
  let fs1 := mkdirAllFs fs (parentSegs rp.segs)
  let content := writeChunks (toChunks body)
  let fs2 : FS :=
    { fs1 with files := fun q => if q = rp.segs then some content else fs1.files q }
  (fs2, rp)

/-! ## Local Conversion Cache (`convert_step_to_gltf`, `get_part_model`)

`cascadio.step_to_glb` is an external native routine; it is modelled as an
oracle `FS → Except String FS` that either raises (the `Except.error` carries
the exception text, caught by the broad `except` of the source) or returns
after transforming the filesystem.  The fixed tolerances 0.1 and 0.5 are
arguments of the external call and play no role in the control flow.  The
third component of the result instruments whether the routine was invoked. -/

/-- The dict returned by `convert_step_to_gltf`:
`{"success": ..., "error": ..., "gltf_path": ...}`, with the path kept in
segment form (the source stores `str(glb_path)`). -/
structure ConvRet where
  success : Bool
  error : Option String
  gltf_path : Option (List String)
deriving DecidableEq

/-- Render a segment path for an error message, as `str(path)` would. -/
def pathStr (p : List String) : String := String.intercalate "/" p

/-- Index of the last `.` in a character list (`str.rfind`), counting from
offset `i`. -/
def rfindDotAux : List Char → Nat → Option Nat
  | [], _ => none
  | c :: cs, i =>
    match rfindDotAux cs (i + 1) with
    | some j => some j
    | none => if c = '.' then some i else none

/-- Computes `Path(f).name`: the characters after the last `/`. -/
def lastComponent (cs : List Char) : List Char :=
  (cs.reverse.takeWhile (fun c => c ≠ '/')).reverse

/-- Computes `Path(f).stem`: the last `/`-separated component without its final
suffix; a dot at position 0 or at the very end does not count as a suffix
separator (CPython computes `name.rfind(".")` and keeps the whole name unless
`0 < i < len(name) - 1`). -/
def pyStem (f : String) : String :=
  let name := lastComponent f.data
  match rfindDotAux name 0 with
  | some i => if 0 < i ∧ i + 1 < name.length then ⟨name.take i⟩ else ⟨name⟩
  | none => ⟨name⟩

/-- Embeds `convert_step_to_gltf` (step_converter.py, lines 14-80). -/
def convert_step_to_gltf (cascadioAvailable : Bool)
    (step_to_glb : FS → Except String FS) (fs : FS)
    (step_file_path output_dir : List String) (output_filename : Option String) :
    ConvRet × FS × Bool :=
  if cascadioAvailable = false then
    ({ success := false
       error := some "cascadio library not available. Please install it: pip install cascadio"
       gltf_path := none }, fs, false)
  else if fileExists fs step_file_path = false then
    ({ success := false
       error := some ("STEP file not found: " ++ pathStr step_file_path)
       gltf_path := none }, fs, false)
  else
    let stem :=
      match output_filename with
      | some s => s
      | none => pyStem (step_file_path.getLastD "")
    let fs1 := mkdirAllFs fs output_dir
    let glb_path := output_dir ++ [stem ++ ".glb"]
    match step_to_glb fs1 with
    | Except.error e =>
      ({ success := false
         error := some ("Conversion failed: " ++ e)
         gltf_path := none }, fs1, true)
    | Except.ok fs2 =>
      if fileExists fs2 glb_path = false then
        ({ success := false
           error := some "GLB file was not created"
           gltf_path := none }, fs2, true)
      else
        ({ success := true, error := none, gltf_path := some glb_path }, fs2, true)

/-- The HTTP responses of `get_part_model` that the claims distinguish. -/
inductive ModelResp where
  | fileResp (path : List String)
  | errNoFile
  | errOriginalNotFound
  | errConversionFailed (details : Option String)
deriving DecidableEq

/-- The body of `get_part_model` (parts.py, lines 687-717) after the part
record is fetched: `part_file` is `part.file` (`none` for a missing or empty
value), `upload_dir` the per-part upload directory.  Returns the response,
the filesystem, and whether the conversion routine was invoked. -/
def get_part_model_core (cascadioAvailable : Bool)
    (step_to_glb : FS → Except String FS) (fs : FS)
    (upload_dir : List String) (part_file : Option String) :
    ModelResp × FS × Bool :=
  match part_file with
  | none => (ModelResp.errNoFile, fs, false)
  | some f =>
    let stem := pyStem f
    let glb_path := upload_dir ++ [stem ++ ".glb"]
    if fileExists fs glb_path then (ModelResp.fileResp glb_path, fs, false)
    else
      let step_path := upload_dir ++ [f]
      if fileExists fs step_path = false then (ModelResp.errOriginalNotFound, fs, false)
      else
        let conv := convert_step_to_gltf cascadioAvailable step_to_glb fs
          step_path upload_dir (some stem)
        if conv.1.success = false then
          (ModelResp.errConversionFailed conv.1.error, conv.2.1, conv.2.2)
        else
          (ModelResp.fileResp (conv.1.gltf_path.getD glb_path), conv.2.1, conv.2.2)

/-! ## Error taxonomy of the remote pipeline (C9)

The spec names six failure modes.  The code signals them through Python
exception classes at the raise sites below (both implementations use the same
classes).  `RaiseSite` enumerates the sites, `modeOf` maps each site to the
spec-level failure mode it realises, and `pyExnTypeOf` records the Python
class actually raised there. -/

/-- The failure modes named by the spec. -/
inductive FailureMode where
  | malformedReference
  | submission
  | terminalFailure
  | pollingTimeout
  | noResult
  | download
deriving DecidableEq, Fintype

/-- The Python exception classes the pipeline can raise. -/
inductive PyExnType where
  | valueError
  | runtimeError
  | timeoutError
  | httpError
deriving DecidableEq, Fintype

/-- The raise sites of the pipeline (onshape_drawing.py; the script mirrors
them with the same classes). -/
inductive RaiseSite where
  | parseNoMatch
  | submitHttpFailure
  | submitMissingLink
  | pollTerminalState
  | pollTimeout
  | resolveNoResult
  | downloadHttpFailure
deriving DecidableEq, Fintype

/-- The spec failure mode realised at each raise site. -/
def modeOf : RaiseSite → FailureMode
  | RaiseSite.parseNoMatch => FailureMode.malformedReference
  | RaiseSite.submitHttpFailure => FailureMode.submission
  | RaiseSite.submitMissingLink => FailureMode.submission
  | RaiseSite.pollTerminalState => FailureMode.terminalFailure
  | RaiseSite.pollTimeout => FailureMode.pollingTimeout
  | RaiseSite.resolveNoResult => FailureMode.noResult
  | RaiseSite.downloadHttpFailure => FailureMode.download

/-- The Python exception class raised at each site, read off the source:
`raise ValueError(...)` in `parse_drawing_url` (line 57),
`response.raise_for_status()` after the submission POST (line 90, giving
`requests.HTTPError`), `raise RuntimeError("Translation response missing
status link.")` (line 120), `raise RuntimeError(...)` on a terminal state
(line 135), `raise TimeoutError(...)` (line 137), `raise RuntimeError(
"Translation finished without downloadable results.")` (line 108), and
`response.raise_for_status()` in `_download_file` (line 145). -/
def pyExnTypeOf : RaiseSite → PyExnType
  | RaiseSite.parseNoMatch => PyExnType.valueError
  | RaiseSite.submitHttpFailure => PyExnType.httpError
  | RaiseSite.submitMissingLink => PyExnType.runtimeError
  | RaiseSite.pollTerminalState => PyExnType.runtimeError
  | RaiseSite.pollTimeout => PyExnType.timeoutError
  | RaiseSite.resolveNoResult => PyExnType.runtimeError
  | RaiseSite.downloadHttpFailure => PyExnType.httpError

/-! ## The two full client pipelines (C10)

`download_pdf` of each implementation, over an abstract environment: the HTTP
layer is modelled by the `href` field of the submission response, the sequence
of status payloads, and the bodies served by the two download endpoints
(keyed by the identifier embedded in the URL the code builds).  HTTP-level
transport failures (`raise_for_status`) are outside the environment; both
implementations treat them identically by propagating the exception. -/

/-- The remote responses one invocation can observe. -/
structure TranslationEnv where
  submissionHref : JsonField
  statusResponses : Nat → StatusPayload
  externalBody : String → List Nat
  blobBody : String → List Nat

/-- Outcome of one `download_pdf` invocation.  `saved` carries the returned
path (the backend returns it as `Path`, the script as `str`; both are the
resolved absolute path). -/
inductive PipelineOutcome where
  | saved (path : FsPath)
  | malformedReference
  | missingStatusLink
  | terminalFailure (state : String)
  | pollingTimeout
  | noResult
  | attributeError
deriving DecidableEq

/-- Embeds `OnshapeDrawingClient.download_pdf` (onshape_drawing.py, lines 66-108):
parse, submit, extract the status URL, poll with the backend loop, then
`if external_ids: download ; if element_ids: blob ; raise`. -/
def backend_download_pdf (env : TranslationEnv) (url : String)
    (cwd : List String) (output_path : FsPath) (maxAttempts : Nat) (fs : FS) :
    PipelineOutcome × FS :=
  match parse_drawing_url url with
  | Except.error _ => (PipelineOutcome.malformedReference, fs)
  | Except.ok _ids =>
    match extract_status_url "https://cad.onshape.com" env.submissionHref with
    | Except.error _ => (PipelineOutcome.missingStatusLink, fs)
    | Except.ok _statusUrl =>
      match (poll_translation env.statusResponses maxAttempts).2 with
      | PollOutcome.terminalFailure st => (PipelineOutcome.terminalFailure st, fs)
      | PollOutcome.timeout => (PipelineOutcome.pollingTimeout, fs)
      | PollOutcome.done payload =>
        match listOr payload.resultExternalDataIds with
        | b :: _ =>
          let r := download_file fs cwd output_path (env.externalBody b)
          (PipelineOutcome.saved r.2, r.1)
        | [] =>
          match listOr payload.resultElementIds with
          | e :: _ =>
            let r := download_file fs cwd output_path (env.blobBody e)
            (PipelineOutcome.saved r.2, r.1)
          | [] => (PipelineOutcome.noResult, fs)

/-- Embeds `OnshapeDrawingDownloader.download_pdf` (download_drawing_pdf.py, lines
53-103): the same stages, with the script polling loop and the branch order
`if not external_ids: (element or raise) ; else: download`. -/
def script_download_pdf (env : TranslationEnv) (url : String)
    (cwd : List String) (output_path : FsPath) (maxAttempts : Nat) (fs : FS) :
    PipelineOutcome × FS :=
  match parse_drawing_url url with
  | Except.error _ => (PipelineOutcome.malformedReference, fs)
  | Except.ok _ids =>
    match extract_status_url "https://cad.onshape.com" env.submissionHref with
    | Except.error _ => (PipelineOutcome.missingStatusLink, fs)
    | Except.ok _statusUrl =>
      match (script_poll_translation env.statusResponses maxAttempts).2 with
      | ScriptPollOutcome.attributeError => (PipelineOutcome.attributeError, fs)
      | ScriptPollOutcome.terminalFailure st => (PipelineOutcome.terminalFailure st, fs)
      | ScriptPollOutcome.timeout => (PipelineOutcome.pollingTimeout, fs)
      | ScriptPollOutcome.done payload =>
        match listOr payload.resultExternalDataIds with
        | [] =>
          match listOr payload.resultElementIds with
          | e :: _ =>
            let r := download_file fs cwd output_path (env.blobBody e)
            (PipelineOutcome.saved r.2, r.1)
          | [] => (PipelineOutcome.noResult, fs)
        | b :: _ =>
          let r := download_file fs cwd output_path (env.externalBody b)
          (PipelineOutcome.saved r.2, r.1)

/-- Embedding of backend poll outcomes into script poll outcomes. -/
def embedOutcome : PollOutcome → ScriptPollOutcome
  | PollOutcome.done p => ScriptPollOutcome.done p
  | PollOutcome.terminalFailure st => ScriptPollOutcome.terminalFailure st
  | PollOutcome.timeout => ScriptPollOutcome.timeout

/-- First character is alphanumeric (false for the empty list). -/
def headAlnum : List Char → Bool
  | [] => false
  | c :: _ => isAlnumChar c

/-! ## Lemmas on the reference parser -/

theorem chompLit_self (l r : List Char) : chompLit l (l ++ r) = some r := by
  induction l with
  | nil => rfl
  | cons c cs ih => simp [chompLit, ih]

theorem chompLit_eq :
    ∀ l cs r : List Char, chompLit l cs = some r → cs = l ++ r := by
  intro l
  induction l with
  | nil =>
    intro cs r h
    simp only [chompLit, Option.some.injEq] at h
    simp [h]
  | cons a as ih =>
    intro cs r h
    cases cs with
    | nil => simp [chompLit] at h
    | cons c cs2 =>
      simp only [chompLit] at h
      by_cases hca : c = a
      · rw [if_pos hca] at h
        subst hca
        rw [ih cs2 r h]
        rfl
      · rw [if_neg hca] at h
        exact absurd h (by simp)

theorem takeAlnum_eq (cs : List Char) :
    cs = (takeAlnum cs).1 ++ (takeAlnum cs).2 ∧
      (takeAlnum cs).1.all isAlnumChar = true := by
  induction cs with
  | nil => simp [takeAlnum]
  | cons c cs ih =>
    by_cases hc : isAlnumChar c
    · simp only [takeAlnum, if_pos hc]
      refine ⟨?_, ?_⟩
      · simpa using ih.1
      · simp [hc, ih.2]
    · simp [takeAlnum, if_neg hc]

theorem takeAlnum_append :
    ∀ t r : List Char, t.all isAlnumChar = true →
      takeAlnum (t ++ r) = (t ++ (takeAlnum r).1, (takeAlnum r).2) := by
  intro t
  induction t with
  | nil => intro r _; rfl
  | cons a t ih =>
    intro r h
    simp only [List.all_cons, Bool.and_eq_true] at h
    simp [takeAlnum, h.1, ih r h.2]

theorem takeAlnum_head_false (r : List Char) (h : headAlnum r = false) :
    takeAlnum r = ([], r) := by
  cases r with
  | nil => rfl
  | cons c cs =>
    simp only [headAlnum] at h
    simp [takeAlnum, h]

theorem matchAt_complete (d w e s : List Char)
    (hd : AlnumToken d) (hw : AlnumToken w) (he : AlnumToken e) :
    (matchAt (docLit ++ (d ++ (wLit ++ (w ++ (eLit ++ (e ++ s))))))).isSome = true := by
  obtain ⟨hd1, hd2⟩ := hd
  obtain ⟨hw1, hw2⟩ := hw
  obtain ⟨he1, he2⟩ := he
  have hwHead : headAlnum (wLit ++ (w ++ (eLit ++ (e ++ s)))) = false := rfl
  have heHead : headAlnum (eLit ++ (e ++ s)) = false := rfl
  have h1 : takeAlnum (d ++ (wLit ++ (w ++ (eLit ++ (e ++ s))))) =
      (d, wLit ++ (w ++ (eLit ++ (e ++ s)))) := by
    rw [takeAlnum_append _ _ hd2, takeAlnum_head_false _ hwHead]
    simp
  have h2 : takeAlnum (w ++ (eLit ++ (e ++ s))) = (w, eLit ++ (e ++ s)) := by
    rw [takeAlnum_append _ _ hw2, takeAlnum_head_false _ heHead]
    simp
  have h3 : takeAlnum (e ++ s) = (e ++ (takeAlnum s).1, (takeAlnum s).2) :=
    takeAlnum_append _ _ he2
  have he3 : e ++ (takeAlnum s).1 ≠ [] := by
    intro hc
    exact he1 (List.append_eq_nil.mp hc).1
  simp only [matchAt, chompLit_self, h1, h2, h3]
  simp [hd1, hw1, he3]

theorem matchAt_empty : matchAt ([] : List Char) = none := by decide

theorem searchMatch_isSome_append (q : List Char)
    (hq : (matchAt q).isSome = true) :
    ∀ p : List Char, (searchMatch (p ++ q)).isSome = true := by
  intro p
  induction p with
  | nil =>
    cases q with
    | nil => rw [matchAt_empty] at hq; simp at hq
    | cons c cs =>
      show (searchMatch (c :: cs)).isSome = true
      rw [searchMatch]
      cases hm : matchAt (c :: cs) with
      | none => rw [hm] at hq; simp at hq
      | some t => simp
  | cons a p ih =>
    show (searchMatch (a :: (p ++ q))).isSome = true
    rw [searchMatch]
    cases hm : matchAt (a :: (p ++ q)) with
    | none => simpa using ih
    | some t => simp

theorem matchAt_sound (cs d w e : List Char) (h : matchAt cs = some (d, w, e)) :
    AlnumToken d ∧ AlnumToken w ∧ AlnumToken e ∧
      ∃ s, cs = docLit ++ d ++ wLit ++ w ++ eLit ++ e ++ s := by
  unfold matchAt at h
  cases h1 : chompLit docLit cs with
  | none => rw [h1] at h; simp at h
  | some r1 =>
    rw [h1] at h
    simp only [] at h
    by_cases hd : (takeAlnum r1).1 = []
    · rw [if_pos hd] at h; simp at h
    · rw [if_neg hd] at h
      cases h2 : chompLit wLit (takeAlnum r1).2 with
      | none => rw [h2] at h; simp at h
      | some r3 =>
        rw [h2] at h
        simp only [] at h
        by_cases hw : (takeAlnum r3).1 = []
        · rw [if_pos hw] at h; simp at h
        · rw [if_neg hw] at h
          cases h3 : chompLit eLit (takeAlnum r3).2 with
          | none => rw [h3] at h; simp at h
          | some r5 =>
            rw [h3] at h
            simp only [] at h
            by_cases he : (takeAlnum r5).1 = []
            · rw [if_pos he] at h; simp at h
            · rw [if_neg he] at h
              simp only [Option.some.injEq, Prod.mk.injEq] at h
              obtain ⟨hdd, hww, hee⟩ := h
              subst hdd; subst hww; subst hee
              refine ⟨⟨hd, (takeAlnum_eq r1).2⟩, ⟨hw, (takeAlnum_eq r3).2⟩,
                ⟨he, (takeAlnum_eq r5).2⟩, (takeAlnum r5).2, ?_⟩
              have e1 : cs = docLit ++ r1 := chompLit_eq _ _ _ h1
              have e2 : r1 = (takeAlnum r1).1 ++ (takeAlnum r1).2 := (takeAlnum_eq r1).1
              have e3 : (takeAlnum r1).2 = wLit ++ r3 := chompLit_eq _ _ _ h2
              have e4 : r3 = (takeAlnum r3).1 ++ (takeAlnum r3).2 := (takeAlnum_eq r3).1
              have e5 : (takeAlnum r3).2 = eLit ++ r5 := chompLit_eq _ _ _ h3
              have e6 : r5 = (takeAlnum r5).1 ++ (takeAlnum r5).2 := (takeAlnum_eq r5).1
              calc cs = docLit ++ r1 := e1
                _ = docLit ++ ((takeAlnum r1).1 ++ (takeAlnum r1).2) := by rw [← e2]
                _ = docLit ++ ((takeAlnum r1).1 ++ (wLit ++ r3)) := by rw [e3]
                _ = docLit ++ ((takeAlnum r1).1 ++ (wLit ++
                      ((takeAlnum r3).1 ++ (takeAlnum r3).2))) := by rw [← e4]
                _ = docLit ++ ((takeAlnum r1).1 ++ (wLit ++
                      ((takeAlnum r3).1 ++ (eLit ++ r5)))) := by rw [e5]
                _ = docLit ++ ((takeAlnum r1).1 ++ (wLit ++
                      ((takeAlnum r3).1 ++ (eLit ++
                        ((takeAlnum r5).1 ++ (takeAlnum r5).2))))) := by rw [← e6]
                _ = docLit ++ (takeAlnum r1).1 ++ wLit ++ (takeAlnum r3).1 ++
                      eLit ++ (takeAlnum r5).1 ++ (takeAlnum r5).2 := by
                    simp [List.append_assoc]

theorem searchMatch_sound :
    ∀ cs d w e : List Char, searchMatch cs = some (d, w, e) →
      IsOccurrence cs d w e := by
  intro cs
  induction cs with
  | nil => intro d w e h; simp [searchMatch] at h
  | cons a cs ih =>
    intro d w e h
    rw [searchMatch] at h
    cases hm : matchAt (a :: cs) with
    | some t =>
      rw [hm] at h
      simp only [Option.some.injEq] at h
      subst h
      obtain ⟨hd, hw, he, s, hcs⟩ := matchAt_sound _ _ _ _ hm
      exact ⟨hd, hw, he, [], s, by simpa using hcs⟩
    | none =>
      rw [hm] at h
      obtain ⟨hd, hw, he, p, s, hcs⟩ := ih d w e h
      refine ⟨hd, hw, he, a :: p, s, ?_⟩
      simp [hcs]

theorem searchMatch_complete (cs d w e : List Char) (h : IsOccurrence cs d w e) :
    (searchMatch cs).isSome = true := by
  obtain ⟨hd, hw, he, p, s, hcs⟩ := h
  subst hcs
  have hq : (matchAt (docLit ++ (d ++ (wLit ++ (w ++ (eLit ++ (e ++ s))))))).isSome = true :=
    matchAt_complete d w e s hd hw he
  have := searchMatch_isSome_append _ hq p
  simpa [List.append_assoc] using this

/-! ## C4: the Reference Parser -/

/-- C4 (counterexample): the claim says that a URL containing the substring
pattern `/documents/{doc}/w/{workspace}/e/{element}` with nonempty
alphanumeric tokens makes the parser return exactly that triple.  The URL
below contains the pattern with tokens `D`, `E`, `F` (second occurrence), yet
`parse_drawing_url` returns the leftmost match `(A, B, C)`. -/
theorem C4_counterexample :
    IsOccurrenceStr "/documents/A/w/B/e/C/documents/D/w/E/e/F" "D" "E" "F"
  ∧ parse_drawing_url "/documents/A/w/B/e/C/documents/D/w/E/e/F" =
      Except.ok ("A", "B", "C")
  ∧ (("A", "B", "C") : String × String × String) ≠ ("D", "E", "F") := by
  refine ⟨⟨by decide, by decide, by decide,
    "/documents/A/w/B/e/C".data, [], by decide⟩, by decide, by decide⟩

/-- C4 (amended): `parse_drawing_url` succeeds exactly on URL strings that
contain an occurrence of the substring pattern
`/documents/{doc}/w/{workspace}/e/{element}` with nonempty alphanumeric
tokens, and the triple it returns is itself such an occurrence (the leftmost
match with maximal alphanumeric runs, which may differ from another given
occurrence); on every URL with no occurrence — in particular when any of the
three segments is missing — it fails with `MalformedReferenceError` and
extracts nothing. -/
theorem C4_parse_characterization (url : String) :
    (∀ d w e : String, parse_drawing_url url = Except.ok (d, w, e) →
      IsOccurrenceStr url d w e)
  ∧ (∀ d w e : List Char, IsOccurrence url.data d w e →
      ∃ t, parse_drawing_url url = Except.ok t)
  ∧ ((∀ d w e : List Char, ¬ IsOccurrence url.data d w e) →
      parse_drawing_url url = Except.error DrawingError.malformedReference) := by
  refine ⟨?_, ?_, ?_⟩
  · intro d w e h
    unfold parse_drawing_url at h
    cases hsm : searchMatch url.data with
    | none => rw [hsm] at h; simp at h
    | some t =>
      obtain ⟨a, b, c⟩ := t
      rw [hsm] at h
      simp only [Except.ok.injEq, Prod.mk.injEq] at h
      obtain ⟨ha, hb, hc⟩ := h
      have hocc := searchMatch_sound url.data a b c hsm
      unfold IsOccurrenceStr
      rw [← ha, ← hb, ← hc]
      exact hocc
  · intro d w e h
    have hs := searchMatch_complete url.data d w e h
    cases hsm : searchMatch url.data with
    | none => rw [hsm] at hs; simp at hs
    | some t =>
      obtain ⟨a, b, c⟩ := t
      exact ⟨(⟨a⟩, ⟨b⟩, ⟨c⟩), by unfold parse_drawing_url; rw [hsm]⟩
  · intro h
    cases hsm : searchMatch url.data with
    | none => unfold parse_drawing_url; rw [hsm]
    | some t =>
      obtain ⟨a, b, c⟩ := t
      exact absurd (searchMatch_sound url.data a b c hsm) (h a b c)

/-- C4 (witness): the amended theorem applied to a well-formed URL with a
single occurrence. -/
theorem C4_parse_characterization_witness :
    ∃ t, parse_drawing_url "https://cad.onshape.com/documents/d0c/w/ws1/e/el2" =
      Except.ok t :=
  (C4_parse_characterization _).2.1 "d0c".data "ws1".data "el2".data
    ⟨by decide, by decide, by decide, "https://cad.onshape.com".data, [], by decide⟩

/-! ## C5: the Job Submitter status link -/

/-- C5 (counterexample): the claim says a present reference that does not
start with `http` is prefixed with the base URL.  A present but empty `href`
is such a reference, yet the code takes the `if not href` branch and raises
the missing-status-link error instead of returning the base URL. -/
theorem C5_counterexample :
    extract_status_url "https://cad.onshape.com" (JsonField.str "") =
      Except.error DrawingError.missingStatusLink
  ∧ extract_status_url "https://cad.onshape.com" (JsonField.str "") ≠
      Except.ok ("https://cad.onshape.com" ++ "") := by decide

/-- C5 (amended): `_extract_status_url` fails with `SubmissionError`
("missing status link") when the `href` reference is absent, JSON null, or an
empty string; for a nonempty reference starting with `http` the status URL is
the reference unchanged; for any other nonempty reference it is the reference
prefixed with the service base URL. -/
theorem C5_extract_status_url (base : String) (href : JsonField) :
    (href = JsonField.absent ∨ href = JsonField.null ∨ href = JsonField.str "" →
      extract_status_url base href = Except.error DrawingError.missingStatusLink)
  ∧ (∀ s : String, href = JsonField.str s → s ≠ "" → pyStartsWith s "http" = true →
      extract_status_url base href = Except.ok s)
  ∧ (∀ s : String, href = JsonField.str s → s ≠ "" → pyStartsWith s "http" = false →
      extract_status_url base href = Except.ok (base ++ s)) := by
  refine ⟨?_, ?_, ?_⟩
  · rintro (rfl | rfl | rfl) <;> rfl
  · rintro s rfl hne hs
    simp [extract_status_url, hne, hs]
  · rintro s rfl hne hs
    simp [extract_status_url, hne, hs]

/-- C5 (witness): a path-relative reference is normalized against the base
URL, and an absolute one is kept. -/
theorem C5_extract_status_url_witness :
    extract_status_url "https://cad.onshape.com" (JsonField.str "/api/v6/translations/t1") =
      Except.ok ("https://cad.onshape.com" ++ "/api/v6/translations/t1") :=
  (C5_extract_status_url "https://cad.onshape.com" _).2.2 "/api/v6/translations/t1"
    rfl (by decide) (by decide)

/-! ## C1, C2: the Status Poller -/

/-- C1: at any polling attempt with budget left, the backend loop classifies
the uppercased state of the status response: on `DONE` it returns the full
payload after exactly that one status call (no further call or sleep); on
`FAILED` or `CANCELED` it fails with `TerminalFailureError` carrying the state
after exactly that one call; on any other value — including `PENDING`, an
unrecognized string, and a missing or null state field, which uppercases to
the empty string — it sleeps the fixed delay once and retries with one fewer
attempt. -/
theorem C1_poll_step (responses : Nat → StatusPayload) (i n : Nat) :
    (stateOfBackend (responses i).requestState = "DONE" →
      pollAux responses i (n + 1) =
        ([PollEvent.statusCall (responses i)], PollOutcome.done (responses i)))
  ∧ (stateOfBackend (responses i).requestState = "FAILED" ∨
        stateOfBackend (responses i).requestState = "CANCELED" →
      pollAux responses i (n + 1) =
        ([PollEvent.statusCall (responses i)],
          PollOutcome.terminalFailure (stateOfBackend (responses i).requestState)))
  ∧ (nonTerminalState (stateOfBackend (responses i).requestState) →
      pollAux responses i (n + 1) =
        (PollEvent.statusCall (responses i) :: PollEvent.sleepDelay ::
            (pollAux responses (i + 1) n).1,
          (pollAux responses (i + 1) n).2)) := by
  refine ⟨?_, ?_, ?_⟩
  · intro h
    simp [pollAux, h]
  · intro h
    have hnd : ¬ stateOfBackend (responses i).requestState = "DONE" := by
      rcases h with h | h <;> simp [h]
    simp [pollAux, hnd, h]
  · intro h
    obtain ⟨h1, h2, h3⟩ := h
    simp [pollAux, h1, h2, h3]

/-- The all-`FAILED` response sequence. -/
def failedResponses : Nat → StatusPayload := fun _ =>
  { requestState := JsonField.str "failed"
    resultExternalDataIds := none
    resultElementIds := none }

/-- C1 (witness): a lowercase `failed` response on the first call is
uppercased and fails the poll after exactly one status call. -/
theorem C1_poll_step_witness :
    pollAux failedResponses 0 30 =
      ([PollEvent.statusCall (failedResponses 0)],
        PollOutcome.terminalFailure (stateOfBackend (failedResponses 0).requestState))
  ∧ stateOfBackend (failedResponses 0).requestState = "FAILED"
  ∧ numCalls [PollEvent.statusCall (failedResponses 0)] = 1 :=
  ⟨(C1_poll_step failedResponses 0 29).2.1 (Or.inl (by decide)), by decide, by decide⟩

theorem pollAux_nonterminal (responses : Nat → StatusPayload) :
    ∀ n i, (∀ j, j < n → nonTerminalState (stateOfBackend (responses (i + j)).requestState)) →
      (pollAux responses i n).2 = PollOutcome.timeout ∧
        numCalls (pollAux responses i n).1 = n := by
  intro n
  induction n with
  | zero => intro i _; simp [pollAux, numCalls]
  | succ m ih =>
    intro i h
    have h0 : nonTerminalState (stateOfBackend (responses i).requestState) := by
      have := h 0 (Nat.succ_pos m)
      simpa using this
    obtain ⟨h1, h2, h3⟩ := h0
    have hrec := ih (i + 1) (fun j hj => by
      have := h (j + 1) (Nat.succ_lt_succ hj)
      have harr : i + (j + 1) = i + 1 + j := by omega
      rwa [harr] at this)
    refine ⟨?_, ?_⟩
    · simp only [pollAux, h1, h2, h3]
      simp [hrec.1, if_neg h1, if_neg h2, if_neg h3]
    · simp only [pollAux]
      rw [if_neg h1, if_neg (by simp [h2, h3])]
      simp only [numCalls, List.countP_cons] at hrec ⊢
      simp at hrec ⊢
      omega

/-- When no polled payload carries a JSON-null state, the script loop behaves
exactly as the backend loop (same trace, embedded outcome). -/
theorem scriptPollAux_eq_pollAux_bounded (responses : Nat → StatusPayload) :
    ∀ n i, (∀ j, j < n → (responses (i + j)).requestState ≠ JsonField.null) →
      scriptPollAux responses i n =
        ((pollAux responses i n).1, embedOutcome (pollAux responses i n).2) := by
  intro n
  induction n with
  | zero => intro i _; simp [scriptPollAux, pollAux, embedOutcome]
  | succ m ih =>
    intro i h
    have h0 : (responses i).requestState ≠ JsonField.null := by
      have := h 0 (Nat.succ_pos m)
      simpa using this
    have hst : stateOfScript (responses i).requestState =
        some (stateOfBackend (responses i).requestState) := by
      cases hf : (responses i).requestState with
      | absent => rfl
      | null => exact absurd hf h0
      | str s => rfl
    have hrec := ih (i + 1) (fun j hj => by
      have := h (j + 1) (Nat.succ_lt_succ hj)
      have harr : i + (j + 1) = i + 1 + j := by omega
      rwa [harr] at this)
    simp only [scriptPollAux, pollAux, hst]
    by_cases h1 : stateOfBackend (responses i).requestState = "DONE"
    · simp [h1, embedOutcome]
    · by_cases h2 : stateOfBackend (responses i).requestState = "FAILED" ∨
          stateOfBackend (responses i).requestState = "CANCELED"
      · simp [h1, h2, embedOutcome]
      · simp [h1, h2, hrec]

/-- C2: for every attempt budget `n ≥ 1`, if every status response reports a
non-terminal state, both polling loops issue exactly `n` status calls and then
fail with `PollingTimeoutError`.  The hypothesis asks that each state extracts
without error and is none of `DONE`, `FAILED`, `CANCELED` (e.g. all
`PENDING`). -/
theorem C2_budget_exhausted (responses : Nat → StatusPayload) (n : Nat)
    (hn : 1 ≤ n)
    (h : ∀ j, j < n → ∃ st, stateOfScript (responses j).requestState = some st ∧
      nonTerminalState st) :
    (poll_translation responses n).2 = PollOutcome.timeout
  ∧ numCalls (poll_translation responses n).1 = n
  ∧ (script_poll_translation responses n).2 = ScriptPollOutcome.timeout
  ∧ numCalls (script_poll_translation responses n).1 = n := by
  have hback : ∀ j, j < n → nonTerminalState (stateOfBackend (responses j).requestState) := by
    intro j hj
    obtain ⟨st, hs, hnt⟩ := h j hj
    have : stateOfBackend (responses j).requestState = st := by
      cases hf : (responses j).requestState <;> rw [hf] at hs <;>
        simp [stateOfScript] at hs <;> simp [stateOfBackend, hs]
    rwa [this]
  have hb := pollAux_nonterminal responses n 0 (by simpa using hback)
  have hnonull : ∀ i, i < n → (responses i).requestState ≠ JsonField.null := by
    intro i hi hc
    obtain ⟨st, hs, _⟩ := h i hi
    rw [hc] at hs
    simp [stateOfScript] at hs
  have hs := scriptPollAux_eq_pollAux_bounded responses n 0 (by simpa using hnonull)
  refine ⟨hb.1, hb.2, ?_, ?_⟩
  · show (scriptPollAux responses 0 n).2 = ScriptPollOutcome.timeout
    rw [hs]
    simp [hb.1, embedOutcome]
  · show numCalls (scriptPollAux responses 0 n).1 = n
    rw [hs]
    exact hb.2

/-- The all-`PENDING` response sequence. -/
def pendingResponses : Nat → StatusPayload := fun _ =>
  { requestState := JsonField.str "PENDING"
    resultExternalDataIds := none
    resultElementIds := none }

/-- C2 (witness): all-`PENDING` responses with `maxAttempts = 3` give exactly
3 calls and a polling timeout in both implementations. -/
theorem C2_budget_exhausted_witness :
    (poll_translation pendingResponses 3).2 = PollOutcome.timeout
  ∧ numCalls (poll_translation pendingResponses 3).1 = 3
  ∧ (script_poll_translation pendingResponses 3).2 = ScriptPollOutcome.timeout
  ∧ numCalls (script_poll_translation pendingResponses 3).1 = 3 :=
  C2_budget_exhausted pendingResponses 3 (by decide)
    (fun _ _ => ⟨"PENDING", rfl, by decide⟩)

/-! ## C3: the Result Resolver -/

/-- C3: on any status payload, the resolution step of `download_pdf` selects
`ExternalBlobRef` with the first entry of the external-data id list whenever
that list is nonempty, regardless of the element id list; otherwise it selects
`ElementRef` with the first element id when that list is nonempty; and when
both lists are empty (or absent or null, which `or []` collapses to empty) it
fails with `NoResultError`. -/
theorem C3_resolver (payload : StatusPayload) :
    (∀ b rest, listOr payload.resultExternalDataIds = b :: rest →
      resolveResult payload = Except.ok (ResultRef.externalBlob b))
  ∧ (listOr payload.resultExternalDataIds = [] →
      ∀ e rest, listOr payload.resultElementIds = e :: rest →
        resolveResult payload = Except.ok (ResultRef.element e))
  ∧ (listOr payload.resultExternalDataIds = [] →
      listOr payload.resultElementIds = [] →
        resolveResult payload = Except.error ResolveError.noResult) := by
  refine ⟨?_, ?_, ?_⟩
  · intro b rest h
    simp [resolveResult, h]
  · intro h1 e rest h2
    simp [resolveResult, h1, h2]
  · intro h1 h2
    simp [resolveResult, h1, h2]

/-- C3 (witness): with both `resultExternalDataIds = ["b1"]` and
`resultElementIds = ["e1"]` present, the resolver picks
`ExternalBlobRef("b1")`. -/
theorem C3_resolver_witness :
    resolveResult
      { requestState := JsonField.str "DONE"
        resultExternalDataIds := some ["b1"]
        resultElementIds := some ["e1"] } =
      Except.ok (ResultRef.externalBlob "b1") :=
  (C3_resolver _).1 "b1" [] rfl

/-! ## C6: the Artifact Downloader -/

theorem foldl_write (cs : List (List Nat)) :
    ∀ acc, cs.foldl writeStep acc = acc ++ writeChunks cs := by
  induction cs with
  | nil => intro acc; simp [writeChunks]
  | cons c cs ih =>
    intro acc
    rw [writeChunks, List.foldl_cons, List.foldl_cons]
    rw [ih (writeStep acc c), ih (writeStep [] c)]
    by_cases hc : c = []
    · subst hc
      simp [writeStep, writeChunks]
    · simp [writeStep, hc, writeChunks]

theorem writeChunks_toChunks (l : List Nat) : writeChunks (toChunks l) = l := by
  generalize hn : l.length = n
  induction n using Nat.strong_induction_on generalizing l with
  | _ n ih =>
    rw [toChunks]
    by_cases hl : l = []
    · simp [hl, writeChunks]
    · rw [dif_neg hl]
      have hlen : 0 < l.length := List.length_pos.mpr hl
      have hdrop : (l.drop CHUNK_SIZE).length < n := by
        rw [← hn]
        simp only [List.length_drop, CHUNK_SIZE]
        omega
      have ihd := ih _ hdrop (l.drop CHUNK_SIZE) rfl
      have htake : l.take CHUNK_SIZE ≠ [] := by
        intro hc
        have := congrArg List.length hc
        simp only [List.length_take, List.length_nil] at this
        simp only [CHUNK_SIZE] at this
        omega
      show writeChunks (l.take CHUNK_SIZE :: toChunks (l.drop CHUNK_SIZE)) = l
      unfold writeChunks
      rw [List.foldl_cons, foldl_write]
      unfold writeStep
      rw [if_neg htake]
      rw [ihd]
      simp

theorem segsLead_refl (l : List String) : segsLead l l = true := by
  induction l with
  | nil => rfl
  | cons a as ih => simp [segsLead, ih]

/-- C6: on every filesystem (whatever the destination currently holds, so the
write overwrites rather than appends), streaming a response body of N bytes in
8 KiB chunks leaves exactly those N bytes at the resolved destination, marks
the parent directory of the destination as existing, and returns the resolved
absolute destination path. -/
theorem C6_download_file (fs : FS) (cwd : List String) (output_path : FsPath)
    (body : List Nat) :
    (download_file fs cwd output_path body).1.files (resolvePath cwd output_path).segs =
      some body
  ∧ (((download_file fs cwd output_path body).1.files
        (resolvePath cwd output_path).segs).getD []).length = body.length
  ∧ (download_file fs cwd output_path body).1.dirs
        (parentSegs (resolvePath cwd output_path).segs) = true
  ∧ (download_file fs cwd output_path body).2 = resolvePath cwd output_path
  ∧ ((download_file fs cwd output_path body).2).absolute = true := by
  refine ⟨?_, ?_, ?_, rfl, rfl⟩
  · simp [download_file, writeChunks_toChunks]
  · simp [download_file, writeChunks_toChunks]
  · simp [download_file, mkdirAllFs, segsLead_refl]

/-! ## C7, C8: the Local Conversion Cache -/

/-- C7: whenever the conversion routine is available, the source file exists,
and the routine returns without raising, but the expected output file
`{output_dir}/{stem}.glb` does not exist afterwards, `convert_step_to_gltf`
reports failure with error "GLB file was not created" (the spec
`ConversionFailedError("output not created")`), never success: file existence,
not the absence of an exception, decides success. -/
theorem C7_output_existence (step_to_glb : FS → Except String FS) (fs fs2 : FS)
    (step_file_path output_dir : List String) (stem : String)
    (hsrc : fileExists fs step_file_path = true)
    (hrun : step_to_glb (mkdirAllFs fs output_dir) = Except.ok fs2)
    (hmiss : fileExists fs2 (output_dir ++ [stem ++ ".glb"]) = false) :
    (convert_step_to_gltf true step_to_glb fs step_file_path output_dir (some stem)).1 =
      { success := false
        error := some "GLB file was not created"
        gltf_path := none } := by
  simp [convert_step_to_gltf, hsrc, hrun, hmiss]

/-- A filesystem holding only the STEP source `u/a.step`. -/
def fsStepOnly : FS :=
  { files := fun p => if p = ["u", "a.step"] then some [0] else none
    dirs := fun _ => false }

/-- C7 (witness): a routine that returns successfully while creating nothing
makes the conversion report the missing output. -/
theorem C7_output_existence_witness :
    (convert_step_to_gltf true (fun _ => Except.ok fsStepOnly) fsStepOnly
        ["u", "a.step"] ["u"] (some "a")).1 =
      { success := false
        error := some "GLB file was not created"
        gltf_path := none } :=
  C7_output_existence (fun _ => Except.ok fsStepOnly) fsStepOnly fsStepOnly
    ["u", "a.step"] ["u"] "a" (by decide) rfl (by decide)

/-- C8: requesting the model artifact twice is idempotent.  First call: with
the glb `{upload_dir}/{stem}.glb` absent, the source present, and a conversion
routine that returns a filesystem containing the glb, `get_part_model` invokes
the routine (instrumentation bit `true`) and serves the glb path.  Second
call: on ANY filesystem in which the glb path exists — regardless of the
conversion routine, of its availability, and of the state or existence of the
source file, i.e. with no freshness check — it serves the same path without
invoking the routine (bit `false`) and leaves the filesystem unchanged. -/
theorem C8_cache_idempotent (step_to_glb step_to_glb2 : FS → Except String FS)
    (avail2 : Bool) (fs fs2 : FS) (upload_dir : List String) (f : String)
    (h1 : fileExists fs (upload_dir ++ [pyStem f ++ ".glb"]) = false)
    (h2 : fileExists fs (upload_dir ++ [f]) = true)
    (h3 : step_to_glb (mkdirAllFs fs upload_dir) = Except.ok fs2)
    (h4 : fileExists fs2 (upload_dir ++ [pyStem f ++ ".glb"]) = true) :
    get_part_model_core true step_to_glb fs upload_dir (some f) =
      (ModelResp.fileResp (upload_dir ++ [pyStem f ++ ".glb"]), fs2, true)
  ∧ ∀ fs3 : FS, fileExists fs3 (upload_dir ++ [pyStem f ++ ".glb"]) = true →
      get_part_model_core avail2 step_to_glb2 fs3 upload_dir (some f) =
        (ModelResp.fileResp (upload_dir ++ [pyStem f ++ ".glb"]), fs3, false) := by
  refine ⟨?_, ?_⟩
  · simp [get_part_model_core, h1, h2, convert_step_to_gltf, h3, h4]
  · intro fs3 h5
    simp [get_part_model_core, h5]

/-- The filesystem after the witness conversion: source and glb present. -/
def fsStepAndGlb : FS :=
  { files := fun p =>
      if p = ["u", "a.step"] then some [0]
      else if p = ["u", "a.glb"] then some [1, 2] else none
    dirs := fun d => segsLead d ["u"] }

/-- C8 (witness): the concrete two-call scenario on `u/a.step`. -/
theorem C8_cache_idempotent_witness :
    get_part_model_core true (fun _ => Except.ok fsStepAndGlb) fsStepOnly
        ["u"] (some "a.step") =
      (ModelResp.fileResp (["u"] ++ [pyStem "a.step" ++ ".glb"]), fsStepAndGlb, true)
  ∧ get_part_model_core true (fun _ => Except.ok fsStepAndGlb) fsStepAndGlb
        ["u"] (some "a.step") =
      (ModelResp.fileResp (["u"] ++ [pyStem "a.step" ++ ".glb"]), fsStepAndGlb, false) := by
  have h := C8_cache_idempotent (fun _ => Except.ok fsStepAndGlb)
    (fun _ => Except.ok fsStepAndGlb) true fsStepOnly fsStepAndGlb ["u"] "a.step"
    (by decide) (by decide) rfl (by decide)
  exact ⟨h.1, h.2 fsStepAndGlb (by decide)⟩

/-! ## C9: error taxonomy -/

/-- C9 (counterexample): two distinct failure modes — `TerminalFailureError`
and `NoResultError` — are raised with the same Python exception class
(`RuntimeError`), so they are not distinguishable by type alone. -/
theorem C9_counterexample :
    modeOf RaiseSite.pollTerminalState ≠ modeOf RaiseSite.resolveNoResult
  ∧ pyExnTypeOf RaiseSite.pollTerminalState = pyExnTypeOf RaiseSite.resolveNoResult := by
  decide

/-- C9 (amended): only some failure modes are distinguishable by exception
type.  `MalformedReferenceError` is exactly the `ValueError` and
`PollingTimeoutError` exactly the `TimeoutError`; but `SubmissionError` in its
missing-status-link form, `TerminalFailureError`, and `NoResultError` all
surface as `RuntimeError`, and the HTTP forms of `SubmissionError` and
`DownloadError` both surface as `requests.HTTPError` — these collide and can
only be told apart by message text or raise site. -/
theorem C9_type_distinguishability :
    (∀ s : RaiseSite, pyExnTypeOf s = PyExnType.valueError ↔
      modeOf s = FailureMode.malformedReference)
  ∧ (∀ s : RaiseSite, pyExnTypeOf s = PyExnType.timeoutError ↔
      modeOf s = FailureMode.pollingTimeout)
  ∧ pyExnTypeOf RaiseSite.submitMissingLink = PyExnType.runtimeError
  ∧ pyExnTypeOf RaiseSite.pollTerminalState = PyExnType.runtimeError
  ∧ pyExnTypeOf RaiseSite.resolveNoResult = PyExnType.runtimeError
  ∧ pyExnTypeOf RaiseSite.submitHttpFailure = PyExnType.httpError
  ∧ pyExnTypeOf RaiseSite.downloadHttpFailure = PyExnType.httpError
  ∧ ¬ (∀ s1 s2 : RaiseSite, modeOf s1 ≠ modeOf s2 →
        pyExnTypeOf s1 ≠ pyExnTypeOf s2) := by
  decide

/-- C9 (witness): the amended theorem instantiated at the parse raise site. -/
theorem C9_type_distinguishability_witness :
    modeOf RaiseSite.parseNoMatch = FailureMode.malformedReference :=
  (C9_type_distinguishability.1 RaiseSite.parseNoMatch).mp (by decide)

/-! ## C10: equivalence of the two client implementations -/

/-- An environment whose first status payload carries a JSON-null state and
whose second is `DONE` with an external result. -/
def env0 : TranslationEnv :=
  { submissionHref := JsonField.str "/t1"
    statusResponses := fun i =>
      if i = 0 then
        { requestState := JsonField.null
          resultExternalDataIds := none
          resultElementIds := none }
      else
        { requestState := JsonField.str "DONE"
          resultExternalDataIds := some ["b1"]
          resultElementIds := none }
    externalBody := fun _ => [7, 7]
    blobBody := fun _ => [] }

/-- Like `env0` but with a `PENDING` first payload instead of null. -/
def env1 : TranslationEnv :=
  { env0 with statusResponses := fun i =>
      if i = 0 then
        { requestState := JsonField.str "PENDING"
          resultExternalDataIds := none
          resultElementIds := none }
      else
        { requestState := JsonField.str "DONE"
          resultExternalDataIds := some ["b1"]
          resultElementIds := none } }

/-- The empty filesystem. -/
def fsEmpty : FS := { files := fun _ => none, dirs := fun _ => false }

/-- C10 (counterexample): on a status payload whose state field is present
but null, the backend client treats the state as empty (non-terminal) and
keeps polling to success, while the script crashes with `AttributeError` —
different outcomes for the same input. -/
theorem C10_counterexample :
    (backend_download_pdf env0 "/documents/a/w/b/e/c" ["home"]
        ⟨false, ["out.pdf"]⟩ 2 fsEmpty).1 =
      PipelineOutcome.saved ⟨true, ["home", "out.pdf"]⟩
  ∧ (script_download_pdf env0 "/documents/a/w/b/e/c" ["home"]
        ⟨false, ["out.pdf"]⟩ 2 fsEmpty).1 =
      PipelineOutcome.attributeError
  ∧ PipelineOutcome.saved (⟨true, ["home", "out.pdf"]⟩ : FsPath) ≠
      PipelineOutcome.attributeError := by
  refine ⟨by decide, by decide, by decide⟩

/-- C10 (amended): for every input whose polled status payloads never carry a
JSON-null state field (absent is fine), the two implementations produce
identical results — the same saved path and filesystem, or the same typed
error at the same stage.  When some polled payload has a null state the
outcomes can differ: the backend treats it as non-terminal, the script raises
`AttributeError` (see the counterexample). -/
theorem C10_equivalence (env : TranslationEnv) (url : String)
    (cwd : List String) (output_path : FsPath) (maxAttempts : Nat) (fs : FS)
    (h : ∀ i, i < maxAttempts →
      (env.statusResponses i).requestState ≠ JsonField.null) :
    script_download_pdf env url cwd output_path maxAttempts fs =
      backend_download_pdf env url cwd output_path maxAttempts fs := by
  unfold script_download_pdf backend_download_pdf
  cases hp : parse_drawing_url url with
  | error e => rfl
  | ok ids =>
    dsimp only
    cases hx : extract_status_url "https://cad.onshape.com" env.submissionHref with
    | error e => rfl
    | ok su =>
      dsimp only
      have hpoll := scriptPollAux_eq_pollAux_bounded env.statusResponses maxAttempts 0
        (by simpa using h)
      rw [script_poll_translation, poll_translation, hpoll]
      cases hout : (pollAux env.statusResponses 0 maxAttempts).2 with
      | done payload =>
        simp only [embedOutcome]
        cases hext : listOr payload.resultExternalDataIds with
        | nil =>
          cases hel : listOr payload.resultElementIds with
          | nil => rfl
          | cons a as => rfl
        | cons b bs => rfl
      | terminalFailure st => rfl
      | timeout => rfl

/-- C10 (witness): with a `PENDING` first payload (no nulls) the two
implementations agree on the whole run. -/
theorem C10_equivalence_witness :
    script_download_pdf env1 "/documents/a/w/b/e/c" ["home"]
        ⟨false, ["out.pdf"]⟩ 2 fsEmpty =
      backend_download_pdf env1 "/documents/a/w/b/e/c" ["home"]
        ⟨false, ["out.pdf"]⟩ 2 fsEmpty :=
  C10_equivalence env1 "/documents/a/w/b/e/c" ["home"] ⟨false, ["out.pdf"]⟩ 2 fsEmpty
    (by decide)

end PartMgmt

